import Mathlib

/-!
Verification of the JS-Benchmarks harness.

This file gives a shallow embedding of the benchmark harness:
the JavaScript benchmark runner (`BenchmarkRunner` in the repository:
`calculateStats`, `runSingleBenchmark`, `waitForServer`, `generateReport`,
`generateComparisons`) and the parallel C++ implementation
(`benchmark_wrk.cpp`: `parseLatencyValue`, `parseWrkOutput`,
`calculateMean`, `calculateStdDev`, `saveResults`), together with the
README generator (`scripts/generate-readme.js`: `generateHeader`).

JavaScript/C++ floating point numbers are modelled as exact rationals
(`ℚ`); `Math.sqrt`/`std::sqrt` is modelled as `Real.sqrt` on the exact
radicand.  Process interaction (spawn / HTTP probe / load generation) is
modelled by its observable outcome: a health probe is a function
`ℕ → Bool` giving the result of the i-th probe, and one benchmark run is
an `Option RunResult` (`none` when the run failed and produced no data).
-/

namespace JSBench

/-- One load-test execution's raw measurements, as assembled by the JS
runner from the autocannon result object (`runSingleBenchmark`):
`requestsPerSecond`, the latency block, `throughput`, error/timeout/
non-2xx counts and the total request count. -/
structure RunResult where
  requestsPerSecond : ℚ
  latencyAverage : ℚ
  latencyP50 : ℚ
  latencyP90 : ℚ
  latencyP95 : ℚ
  latencyP99 : ℚ
  throughput : ℚ
  errors : ℕ
  timeouts : ℕ
  non2xx : ℕ
  totalRequests : ℕ
deriving DecidableEq

/-- Embeds `rpsValues = runs.map(r => r.requestsPerSecond)` in `calculateStats`. -/
def rpsValues (runs : List RunResult) : List ℚ :=
  runs.map (fun r => r.requestsPerSecond)

/-- Embeds `latencyAvgValues = runs.map(r => r.latency.average)` in `calculateStats`. -/
def latencyAvgValues (runs : List RunResult) : List ℚ :=
  runs.map (fun r => r.latencyAverage)

/-- Embeds `avgRps = rpsValues.reduce((sum, val) => sum + val, 0) / n` in
`calculateStats` (with `n = runs.length`). -/
def avgRps (runs : List RunResult) : ℚ :=
  (rpsValues runs).foldl (· + ·) 0 / (runs.length : ℚ)

/-- The radicand of `stdRps` in `calculateStats`:
`rpsValues.reduce((sum, val) => sum + Math.pow(val - avgRps, 2), 0) / n`. -/
def rpsVariance (runs : List RunResult) : ℚ :=
  ((rpsValues runs).foldl (fun sum val => sum + (val - avgRps runs) ^ 2) 0) /
    (runs.length : ℚ)

/-- Embeds `stdRps = Math.sqrt(rpsVariance)` in `calculateStats`; the square root
lives in `ℝ`, so it is factored out of the otherwise rational statistics. -/
noncomputable def stdRps (runs : List RunResult) : ℝ :=
  Real.sqrt ((rpsVariance runs : ℚ) : ℝ)

/-- Embeds `avgLatency = latencyAvgValues.reduce((sum, val) => sum + val, 0) / n`
in `calculateStats`. -/
def avgLatency (runs : List RunResult) : ℚ :=
  (latencyAvgValues runs).foldl (· + ·) 0 / (runs.length : ℚ)

/-- The radicand of `stdLatency` in `calculateStats`. -/
def latencyVariance (runs : List RunResult) : ℚ :=
  ((latencyAvgValues runs).foldl
      (fun sum val => sum + (val - avgLatency runs) ^ 2) 0) /
    (runs.length : ℚ)

/-- Embeds `stdLatency = Math.sqrt(latencyVariance)` in `calculateStats`. -/
noncomputable def stdLatency (runs : List RunResult) : ℝ :=
  Real.sqrt ((latencyVariance runs : ℚ) : ℝ)

/-- Embeds `totalRequests = runs.reduce((sum, r) => sum + r.totalRequests, 0)`
in `calculateStats`. -/
def totalRequestsSum (runs : List RunResult) : ℕ :=
  runs.foldl (fun sum r => sum + r.totalRequests) 0

/-- Embeds `totalErrors = runs.reduce((sum, r) => sum + r.errors + r.timeouts + r.non2xx, 0)`
in `calculateStats`. -/
def totalErrorsSum (runs : List RunResult) : ℕ :=
  runs.foldl (fun sum r => sum + (r.errors + r.timeouts + r.non2xx)) 0

/-- Embeds `errorRate = totalRequests > 0 ? totalErrors / totalRequests : 0`
in `calculateStats`. -/
def errorRate (runs : List RunResult) : ℚ :=
  if 0 < totalRequestsSum runs then
    (totalErrorsSum runs : ℚ) / (totalRequestsSum runs : ℚ)
  else 0

/-- The object returned by `calculateStats` (the two `Math.sqrt` fields
`stdRps`/`stdLatency` are the separate real-valued definitions above). -/
structure Stats where
  requestsPerSecond : ℚ
  latencyAverage : ℚ
  latencyP50 : ℚ
  latencyP90 : ℚ
  latencyP95 : ℚ
  latencyP99 : ℚ
  throughput : ℚ
  errorRate : ℚ
  totalRequests : ℕ
  totalErrors : ℕ
deriving DecidableEq

/-- Embeds `calculateStats(runs)` from the JS benchmark runner: arithmetic means
of the intensive metrics, summed extensive counts, and the guarded error
rate. -/
def calculateStats (runs : List RunResult) : Stats where
  requestsPerSecond := avgRps runs
  latencyAverage := avgLatency runs
  latencyP50 :=
    ((runs.map (fun r => r.latencyP50)).foldl (· + ·) 0) / (runs.length : ℚ)
  latencyP90 :=
    ((runs.map (fun r => r.latencyP90)).foldl (· + ·) 0) / (runs.length : ℚ)
  latencyP95 :=
    ((runs.map (fun r => r.latencyP95)).foldl (· + ·) 0) / (runs.length : ℚ)
  latencyP99 :=
    ((runs.map (fun r => r.latencyP99)).foldl (· + ·) 0) / (runs.length : ℚ)
  throughput :=
    ((runs.map (fun r => r.throughput)).foldl (· + ·) 0) / (runs.length : ℚ)
  errorRate := errorRate runs
  totalRequests := totalRequestsSum runs
  totalErrors := totalErrorsSum runs

/-- Embeds `calculateMean` from `benchmark_wrk.cpp`: sum of the values divided by
their count. -/
def calculateMean (values : List ℚ) : ℚ :=
  (values.foldl (· + ·) 0) / (values.length : ℚ)

/-- Embeds `calculateStdDev(values, mean)` from `benchmark_wrk.cpp`:
`sqrt(sum((val - mean)^2) / values.size())`. -/
noncomputable def calculateStdDev (values : List ℚ) (mean : ℚ) : ℝ :=
  Real.sqrt
    (((values.foldl (fun sum val => sum + (val - mean) * (val - mean)) 0) /
        (values.length : ℚ) : ℚ) : ℝ)

/-- Spec-side definition (from the spec's words): the arithmetic mean of a
list of values. -/
def arithMean (l : List ℚ) : ℚ :=
  l.sum / (l.length : ℚ)

/-- Spec-side definition: the population variance — the sum of squared
deviations from the mean divided by N (not N−1). -/
def popVariance (l : List ℚ) : ℚ :=
  ((l.map (fun v => (v - arithMean l) ^ 2)).sum) / (l.length : ℚ)

/-- Spec-side definition: the population standard deviation. -/
noncomputable def popStdDev (l : List ℚ) : ℝ :=
  Real.sqrt ((popVariance l : ℚ) : ℝ)

/-- Folding addition of `g` over a list from an accumulator is the
accumulator plus the sum of the mapped list (the `reduce((s, v) => s + g v, 0)`
idiom of the JS code). -/
theorem foldl_add_map {α M : Type*} [AddCommMonoid M] (g : α → M)
    (l : List α) (a : M) :
    l.foldl (fun sum v => sum + g v) a = a + (l.map g).sum := by
  induction l generalizing a with
  | nil => simp
  | cons x xs ih => simp [ih, add_assoc]

/-- The idiom `reduce((s, v) => s + v, 0)` computes the list sum. -/
theorem foldl_add_eq_sum (l : List ℚ) : l.foldl (· + ·) 0 = l.sum := by
  have h := foldl_add_map (fun v : ℚ => v) l 0
  simpa using h

/-- The JS `avgRps` is the arithmetic mean of the runs' rps values. -/
theorem avgRps_eq_arithMean (runs : List RunResult) :
    avgRps runs = arithMean (rpsValues runs) := by
  simp [avgRps, arithMean, foldl_add_eq_sum, rpsValues]

/-- The JS `avgLatency` is the arithmetic mean of the runs' average
latencies. -/
theorem avgLatency_eq_arithMean (runs : List RunResult) :
    avgLatency runs = arithMean (latencyAvgValues runs) := by
  simp [avgLatency, arithMean, foldl_add_eq_sum, latencyAvgValues]

/-- The radicand of the JS `stdRps` is the population variance of the rps
values. -/
theorem rpsVariance_eq_popVariance (runs : List RunResult) :
    rpsVariance runs = popVariance (rpsValues runs) := by
  simp [rpsVariance, popVariance, foldl_add_map, avgRps_eq_arithMean,
    rpsValues]

/-- The radicand of the JS `stdLatency` is the population variance of the
average-latency values. -/
theorem latencyVariance_eq_popVariance (runs : List RunResult) :
    latencyVariance runs = popVariance (latencyAvgValues runs) := by
  simp [latencyVariance, popVariance, foldl_add_map, avgLatency_eq_arithMean,
    latencyAvgValues]

/-- The C++ `calculateMean` is the arithmetic mean. -/
theorem calculateMean_eq_arithMean (values : List ℚ) :
    calculateMean values = arithMean values := by
  simp [calculateMean, arithMean, foldl_add_eq_sum]

/-- The JS `stdRps` is the population standard deviation of the rps
values. -/
theorem stdRps_eq_popStdDev (runs : List RunResult) :
    stdRps runs = popStdDev (rpsValues runs) := by
  unfold stdRps popStdDev
  congr 1
  exact_mod_cast rpsVariance_eq_popVariance runs

/-- The JS `stdLatency` is the population standard deviation of the
average-latency values. -/
theorem stdLatency_eq_popStdDev (runs : List RunResult) :
    stdLatency runs = popStdDev (latencyAvgValues runs) := by
  unfold stdLatency popStdDev
  congr 1
  exact_mod_cast latencyVariance_eq_popVariance runs

/-- The C++ `calculateStdDev`, applied at the mean that `runBenchmark`
passes it, is the population standard deviation. -/
theorem calculateStdDev_eq_popStdDev (values : List ℚ) :
    calculateStdDev values (calculateMean values) = popStdDev values := by
  unfold calculateStdDev popStdDev
  congr 1
  have h : (values.foldl
      (fun sum val => sum + (val - calculateMean values) *
        (val - calculateMean values)) 0) / (values.length : ℚ) =
      popVariance values := by
    rw [foldl_add_map]
    simp [popVariance, calculateMean_eq_arithMean, pow_two]
  exact_mod_cast h

/-- C1: for every non-empty list of run results, the aggregated
requests-per-second is the arithmetic mean of the runs' rps values and the
reported standard deviation is the population standard deviation
(divide by N, not N−1); the same convention holds for average latency, and
the C++ `calculateMean`/`calculateStdDev` pair follows it as well. -/
theorem claim_C1_population_statistics (runs : List RunResult)
    (values : List ℚ) (hruns : runs ≠ []) (hvalues : values ≠ []) :
    ((calculateStats runs).requestsPerSecond = arithMean (rpsValues runs) ∧
      stdRps runs = popStdDev (rpsValues runs)) ∧
    ((calculateStats runs).latencyAverage = arithMean (latencyAvgValues runs) ∧
      stdLatency runs = popStdDev (latencyAvgValues runs)) ∧
    (calculateMean values = arithMean values ∧
      calculateStdDev values (calculateMean values) = popStdDev values) :=
  ⟨⟨avgRps_eq_arithMean runs, stdRps_eq_popStdDev runs⟩,
    ⟨avgLatency_eq_arithMean runs, stdLatency_eq_popStdDev runs⟩,
    ⟨calculateMean_eq_arithMean values, calculateStdDev_eq_popStdDev values⟩⟩

/-- A hand-computable N = 3 fixture: rps values 10, 20, 30 and average
latencies 1, 2, 3. -/
def fixtureRun (rps lat : ℚ) : RunResult :=
  ⟨rps, lat, 0, 0, 0, 0, 0, 0, 0, 0, 0⟩

/-- The three-run fixture list. -/
def fixtureRuns : List RunResult :=
  [fixtureRun 10 1, fixtureRun 20 2, fixtureRun 30 3]

theorem claim_C1_witness :
    (fixtureRuns ≠ [] ∧ ([10, 20, 30] : List ℚ) ≠ []) ∧
    (((calculateStats fixtureRuns).requestsPerSecond =
        arithMean (rpsValues fixtureRuns) ∧
      stdRps fixtureRuns = popStdDev (rpsValues fixtureRuns)) ∧
     ((calculateStats fixtureRuns).latencyAverage =
        arithMean (latencyAvgValues fixtureRuns) ∧
      stdLatency fixtureRuns = popStdDev (latencyAvgValues fixtureRuns)) ∧
     (calculateMean [10, 20, 30] = arithMean [10, 20, 30] ∧
      calculateStdDev [10, 20, 30] (calculateMean [10, 20, 30]) =
        popStdDev [10, 20, 30])) ∧
    ((calculateStats fixtureRuns).requestsPerSecond = 20 ∧
      rpsVariance fixtureRuns = 200 / 3) :=
  ⟨⟨by decide, by decide⟩,
    claim_C1_population_statistics fixtureRuns [10, 20, 30]
      (by decide) (by decide),
    by norm_num [calculateStats, avgRps, rpsValues, fixtureRuns, fixtureRun],
    by norm_num [rpsVariance, avgRps, rpsValues, fixtureRuns, fixtureRun]⟩

/-! ### The health-wait loop (`waitForServer`)

`waitForServer(port, maxAttempts)` probes the server once per iteration
and sleeps 500 ms between attempts; the probe outcomes are modelled by a
function `probe : ℕ → Bool` giving the result of the i-th health check.
`waitRun` returns the loop's result together with the number of probes it
actually performed. -/

/-- The fixed sleep interval between health-check attempts, in
milliseconds (`await this.sleep(500)` in the JS runner,
`sleep_for(milliseconds(500))` in the C++). -/
def pollIntervalMs : ℕ := 500

/-- The loop body of `waitForServer`, started at probe index `i` with
`n` attempts remaining; returns the boolean outcome and the number of
probes performed. -/
def waitRun (probe : ℕ → Bool) : ℕ → ℕ → Bool × ℕ
  | _, 0 => (false, 0)
  | i, n + 1 =>
    if probe i then (true, 1)
    else
      let rest := waitRun probe (i + 1) n
      (rest.1, rest.2 + 1)

/-- Embeds `waitForServer(port, maxAttempts)`: run the probe loop from the first
attempt; `true` on some successful probe, `false` once attempts are
exhausted. -/
def waitForServer (probe : ℕ → Bool) (maxAttempts : ℕ) : Bool :=
  (waitRun probe 0 maxAttempts).1

/-- The loop performs at most as many probes as it has attempts. -/
theorem waitRun_count_le (probe : ℕ → Bool) :
    ∀ (n s : ℕ), (waitRun probe s n).2 ≤ n := by
  intro n
  induction n with
  | zero => intro s; simp [waitRun]
  | succ n ih =>
    intro s
    by_cases h : probe s
    · simp [waitRun, h]
    · simp only [waitRun, h, if_neg, Bool.false_eq_true, not_false_iff,
        if_false]
      exact Nat.succ_le_succ (ih (s + 1))

/-- The loop returns `true` exactly when some probe within the attempt
budget succeeds. -/
theorem waitRun_true_iff (probe : ℕ → Bool) :
    ∀ (n s : ℕ),
      (waitRun probe s n).1 = true ↔ ∃ k, k < n ∧ probe (s + k) = true := by
  intro n
  induction n with
  | zero => intro s; simp [waitRun]
  | succ n ih =>
    intro s
    by_cases h : probe s
    · refine iff_of_true (by simp [waitRun, h]) ⟨0, Nat.succ_pos n, by simpa using h⟩
    · have hstep : (waitRun probe s (n + 1)).1 = (waitRun probe (s + 1) n).1 := by
        simp [waitRun, h]
      rw [hstep, ih (s + 1)]
      constructor
      · rintro ⟨k, hk, hp⟩
        refine ⟨k + 1, by omega, ?_⟩
        rw [show s + (k + 1) = s + 1 + k by omega]
        exact hp
      · rintro ⟨k, hk, hp⟩
        match k with
        | 0 =>
          rw [Nat.add_zero] at hp
          exact absurd hp h
        | j + 1 =>
          refine ⟨j, by omega, ?_⟩
          rw [show s + 1 + j = s + (j + 1) by omega]
          exact hp

/-- The loop stops at the first successful probe: if probe `i` succeeds
and all earlier probes fail, exactly `i + 1` probes are performed. -/
theorem waitRun_first_success (probe : ℕ → Bool) :
    ∀ (n s i : ℕ), i < n → probe (s + i) = true →
      (∀ j, j < i → probe (s + j) = false) →
      waitRun probe s n = (true, i + 1) := by
  intro n
  induction n with
  | zero => intro s i hi; omega
  | succ n ih =>
    intro s i hi hp hmin
    by_cases h : probe s
    · have hi0 : i = 0 := by
        by_contra h0
        have hz := hmin 0 (Nat.pos_of_ne_zero h0)
        rw [Nat.add_zero] at hz
        rw [hz] at h
        exact absurd h (by simp)
      subst hi0
      simp [waitRun, h]
    · have hi0 : i ≠ 0 := by
        intro h0
        subst h0
        rw [Nat.add_zero] at hp
        exact absurd hp h
      obtain ⟨j, rfl⟩ : ∃ j, i = j + 1 := ⟨i - 1, by omega⟩
      have hrec := ih (s + 1) j (by omega)
        (by rw [show s + 1 + j = s + (j + 1) by omega]; exact hp)
        (fun m hm => by
          rw [show s + 1 + m = s + (m + 1) by omega]
          exact hmin (m + 1) (by omega))
      simp [waitRun, h, hrec]

/-- C7: the health-wait loop performs at most `maxAttempts` probes,
returns `true` exactly when some probe within the budget succeeds (and
does so as soon as the first successful probe happens, after `i + 1`
probes), and returns `false` — rather than raising — once the attempts
are exhausted; it is a total function, hence always terminates within
`maxAttempts` iterations. -/
theorem claim_C7_waitForServer_bounded (probe : ℕ → Bool) (maxAttempts : ℕ) :
    (waitRun probe 0 maxAttempts).2 ≤ maxAttempts ∧
    (waitForServer probe maxAttempts = true ↔
      ∃ i, i < maxAttempts ∧ probe i = true) ∧
    ((∀ i, i < maxAttempts → probe i = false) →
      waitForServer probe maxAttempts = false) ∧
    (∀ i, i < maxAttempts → probe i = true →
      (∀ j, j < i → probe j = false) →
      waitRun probe 0 maxAttempts = (true, i + 1)) := by
  refine ⟨waitRun_count_le probe maxAttempts 0, ?_, ?_, ?_⟩
  · rw [waitForServer, waitRun_true_iff]
    simp
  · intro hall
    rw [waitForServer]
    by_contra hne
    have htrue : (waitRun probe 0 maxAttempts).1 = true := by
      cases hv : (waitRun probe 0 maxAttempts).1
      · exact absurd hv hne
      · rfl
    obtain ⟨k, hk, hp⟩ := (waitRun_true_iff probe maxAttempts 0).mp htrue
    rw [Nat.zero_add] at hp
    rw [hall k hk] at hp
    exact absurd hp (by simp)
  · intro i hi hp hmin
    exact waitRun_first_success probe maxAttempts 0 i hi
      (by rw [Nat.zero_add]; exact hp)
      (fun j hj => by rw [Nat.zero_add]; exact hmin j hj)

/-- A concrete probe that first succeeds on the third attempt. -/
def probeThird : ℕ → Bool := fun i => decide (i = 2)

theorem claim_C7_witness :
    (2 < 5 ∧ probeThird 2 = true ∧ (∀ j, j < 2 → probeThird j = false)) ∧
    waitRun probeThird 0 5 = (true, 3) :=
  ⟨⟨by decide, by decide, by decide⟩,
    (claim_C7_waitForServer_bounded probeThird 5).2.2.2 2
      (by decide) (by decide) (by decide)⟩

/-! ### Run aggregation and the orchestrator's result list

One run of `runSingleBenchmark`'s inner loop either produces a
`RunResult` (pushed onto `runs`) or fails (server never healthy / load
driver error) and produces nothing; a whole setup is therefore a list of
`Option RunResult` outcomes.  After the loop, the JS runner pushes an
aggregated result onto `this.results` only when `runs.length > 0`. -/

/-- The aggregated result object pushed onto `this.results` by
`runSingleBenchmark`, restricted to the fields the claims are about
(`framework`, `runtime`, the aggregated rps and average latency from
`calculateStats`, and the successful-run count `runs`). -/
structure AggResult where
  framework : String
  runtime : String
  requestsPerSecond : ℚ
  latencyAverage : ℚ
  runs : ℕ
deriving DecidableEq

/-- The result object built at the end of `runSingleBenchmark`:
`{framework, runtime, ...this.calculateStats(runs), runs: runs.length}`. -/
def makeAggResult (framework runtime : String) (runs : List RunResult) :
    AggResult where
  framework := framework
  runtime := runtime
  requestsPerSecond := (calculateStats runs).requestsPerSecond
  latencyAverage := (calculateStats runs).latencyAverage
  runs := runs.length

/-- Embeds `runSingleBenchmark(framework, runtime)`: collect the successful run
outcomes; if any were collected, push the aggregated result onto the
result list, otherwise leave the result list unchanged. -/
def runSingleBenchmark (framework runtime : String)
    (outcomes : List (Option RunResult)) (results : List AggResult) :
    List AggResult :=
  let runs := outcomes.filterMap id
  if 0 < runs.length then results ++ [makeAggResult framework runtime runs]
  else results

/-- The orchestrator loop of `runAllBenchmarks`: process every setup in
order, threading the accumulated result list. -/
def runAllBenchmarks
    (setups : List (String × String × List (Option RunResult)))
    (acc : List AggResult) : List AggResult :=
  setups.foldl (fun res s => runSingleBenchmark s.1 s.2.1 s.2.2 res) acc

/-- C2 counterexample: a setup whose three runs all fail contributes no
entry at all to the result list — in particular no `runs == 0` failed
entry is included in the report, contrary to the claim. -/
theorem claim_C2_counterexample :
    runSingleBenchmark "Express" "node" [none, none, none] [] = [] ∧
    ¬ ∃ r, r ∈ runSingleBenchmark "Express" "node" [none, none, none] [] ∧
        r.runs = 0 := by
  refine ⟨rfl, ?_⟩
  rintro ⟨r, hr, -⟩
  rw [show runSingleBenchmark "Express" "node" [none, none, none] [] = []
    from rfl] at hr
  exact absurd hr (List.not_mem_nil r)

/-- Every run outcome being a failure makes the collected run list empty. -/
theorem filterMap_id_eq_nil {α : Type*} (l : List (Option α))
    (h : ∀ o ∈ l, o = none) : l.filterMap id = [] := by
  induction l with
  | nil => rfl
  | cons o os ih =>
    have ho := h o (List.mem_cons_self o os)
    subst ho
    simpa using ih (fun x hx => h x (List.mem_cons_of_mem _ hx))

/-- C2 (amended): a setup whose runs all fail leaves the orchestrator's
result list unchanged — it is silently omitted from the report and hence
from every ranking (there is no `runs == 0` failed entry) — and the
orchestrator's processing of the subsequent setups is exactly as if the
failed setup were absent (no crash, the loop is a total function). -/
theorem claim_C2_all_runs_failed (framework runtime : String)
    (outcomes : List (Option RunResult)) (results : List AggResult)
    (rest : List (String × String × List (Option RunResult)))
    (hfail : ∀ o ∈ outcomes, o = none) :
    runSingleBenchmark framework runtime outcomes results = results ∧
    runAllBenchmarks ((framework, runtime, outcomes) :: rest) results =
      runAllBenchmarks rest results := by
  have hempty : outcomes.filterMap id = [] := filterMap_id_eq_nil outcomes hfail
  have h1 : runSingleBenchmark framework runtime outcomes results = results := by
    simp [runSingleBenchmark, hempty]
  refine ⟨h1, ?_⟩
  simp only [runAllBenchmarks, List.foldl_cons]
  rw [h1]

theorem claim_C2_witness :
    (∀ o ∈ ([none, none, none] : List (Option RunResult)), o = none) ∧
    runSingleBenchmark "Fastify" "bun" [none, none, none]
        [makeAggResult "Hono" "node" [fixtureRun 10 1]] =
      [makeAggResult "Hono" "node" [fixtureRun 10 1]] ∧
    runAllBenchmarks [("Fastify", "bun", [none, none, none])]
        [makeAggResult "Hono" "node" [fixtureRun 10 1]] =
      runAllBenchmarks []
        [makeAggResult "Hono" "node" [fixtureRun 10 1]] :=
  ⟨by simp,
    claim_C2_all_runs_failed "Fastify" "bun" [none, none, none]
      [makeAggResult "Hono" "node" [fixtureRun 10 1]] [] (by simp)⟩

/-! ### The aggregated error rate (C10) -/

/-- The summed request count is the sum of the runs' request counts. -/
theorem totalRequestsSum_eq (runs : List RunResult) :
    totalRequestsSum runs = (runs.map (fun r => r.totalRequests)).sum := by
  simpa [totalRequestsSum] using
    foldl_add_map (fun r : RunResult => r.totalRequests) runs 0

/-- The summed error count is the sum of the runs' error, timeout and
non-2xx counts. -/
theorem totalErrorsSum_eq (runs : List RunResult) :
    totalErrorsSum runs =
      (runs.map (fun r => r.errors + r.timeouts + r.non2xx)).sum := by
  have h := foldl_add_map
    (fun r : RunResult => r.errors + r.timeouts + r.non2xx) runs 0
  simpa [totalErrorsSum, Nat.add_assoc] using h

/-- C10: the aggregated error rate is summed errors over summed total
requests only when the summed total requests is positive, and `0`
otherwise; in particular a run list in which every run reports zero total
requests gets error rate `0`, and the guarded branch never divides by the
request count when it is zero. -/
theorem claim_C10_errorRate_guarded (runs : List RunResult) :
    ((∀ r ∈ runs, r.totalRequests = 0) →
      (calculateStats runs).errorRate = 0) ∧
    (totalRequestsSum runs = 0 → (calculateStats runs).errorRate = 0) ∧
    (0 < totalRequestsSum runs →
      (calculateStats runs).errorRate =
        (((runs.map (fun r => r.errors + r.timeouts + r.non2xx)).sum : ℕ) : ℚ) /
          (((runs.map (fun r => r.totalRequests)).sum : ℕ) : ℚ)) := by
  have hproj : (calculateStats runs).errorRate = errorRate runs := rfl
  refine ⟨?_, ?_, ?_⟩
  · intro hall
    have hzero : totalRequestsSum runs = 0 := by
      rw [totalRequestsSum_eq]
      exact List.sum_eq_zero (by
        intro x hx
        obtain ⟨r, hr, rfl⟩ := List.mem_map.mp hx
        exact hall r hr)
    rw [hproj, errorRate, if_neg (by omega)]
  · intro hzero
    rw [hproj, errorRate, if_neg (by omega)]
  · intro hpos
    rw [hproj, errorRate, if_pos hpos, totalErrorsSum_eq, totalRequestsSum_eq]

/-- A run reporting ten requests, one error, two timeouts and three
non-2xx responses. -/
def fixtureRunErrors : RunResult :=
  ⟨0, 0, 0, 0, 0, 0, 0, 1, 2, 3, 10⟩

theorem claim_C10_witness :
    ((∀ r ∈ fixtureRuns, r.totalRequests = 0) ∧
      (calculateStats fixtureRuns).errorRate = 0) ∧
    (0 < totalRequestsSum [fixtureRunErrors] ∧
      (calculateStats [fixtureRunErrors]).errorRate =
        ((([fixtureRunErrors].map
            (fun r => r.errors + r.timeouts + r.non2xx)).sum : ℕ) : ℚ) /
          ((([fixtureRunErrors].map (fun r => r.totalRequests)).sum : ℕ) : ℚ)) :=
  ⟨⟨by decide, (claim_C10_errorRate_guarded fixtureRuns).1 (by decide)⟩,
    ⟨by decide,
      (claim_C10_errorRate_guarded [fixtureRunErrors]).2.2 (by decide)⟩⟩

/-! ### The wrk output parser (`benchmark_wrk.cpp`, `parseWrkOutput`)

`parseWrkOutput` runs seven `std::regex_search` patterns over each line of
the wrk text output.  Each pattern is embedded as a match-at-position
function over the line's characters, and `scan` gives `regex_search`'s
leftmost-match semantics by trying every start position from the left.
The capture groups are strings (as they are in C++); `std::stod` and
`std::stoi` are applied to the captured tokens afterwards, exactly as in
the source. -/

/-- The regex character class `\s` (the wrk lines only contain blanks). -/
def wsChar (c : Char) : Bool := c = ' ' || c = '\t'

/-- The regex character class `[0-9.]`. -/
def numChar (c : Char) : Bool := c.isDigit || c = '.'

/-- The regex character class `\w`. -/
def wordChar (c : Char) : Bool := c.isAlphanum || c = '_'

/-- Value of a string of decimal digits. -/
def digitsToNat (cs : List Char) : ℕ :=
  cs.foldl (fun a c => 10 * a + (c.toNat - 48)) 0

/-- Numerator of the decimal value of a `[0-9.]` token: the integer part
scaled past the fractional digits, plus the fractional digits. -/
def decNum (cs : List Char) : ℕ :=
  let intPart := cs.takeWhile Char.isDigit
  let rest := cs.dropWhile Char.isDigit
  match rest with
  | '.' :: rest2 =>
    let frac := rest2.takeWhile Char.isDigit
    digitsToNat intPart * 10 ^ frac.length + digitsToNat frac
  | _ => digitsToNat intPart

/-- Denominator of the decimal value of a `[0-9.]` token: ten to the
number of fractional digits. -/
def decDen (cs : List Char) : ℕ :=
  match cs.dropWhile Char.isDigit with
  | '.' :: rest2 => 10 ^ (rest2.takeWhile Char.isDigit).length
  | _ => 1

/-- Embeds `std::stod` on a token drawn from `[0-9.]`: integer part, then an
optional fractional part after the first dot. -/
def parseDecimal (cs : List Char) : ℚ :=
  (decNum cs : ℚ) / (decDen cs : ℚ)

/-- Embeds `std::stod` applied to a captured token. -/
def stod (s : String) : ℚ := parseDecimal s.toList

/-- Embeds `std::stoi` applied to a captured (all-digits) token. -/
def stoi (s : String) : ℕ := digitsToNat (s.toList.takeWhile Char.isDigit)

/-- Match a literal string at the current position, returning the rest. -/
def dropLit : List Char → List Char → Option (List Char)
  | [], cs => some cs
  | _ :: _, [] => none
  | p :: ps, c :: cs => if c = p then dropLit ps cs else none

/-- Match `\s+` at the current position. -/
def dropWs1 : List Char → Option (List Char)
  | [] => none
  | c :: cs => if wsChar c then some ((c :: cs).dropWhile wsChar) else none

/-- Capture `([0-9.]+)` at the current position. -/
def takeNumTok (cs : List Char) : Option (String × List Char) :=
  let tok := cs.takeWhile numChar
  if tok.isEmpty then none
  else some (String.mk tok, cs.dropWhile numChar)

/-- Capture `(\d+)` at the current position. -/
def takeDigitsTok (cs : List Char) : Option (String × List Char) :=
  let tok := cs.takeWhile Char.isDigit
  if tok.isEmpty then none
  else some (String.mk tok, cs.dropWhile Char.isDigit)

/-- Capture `(\w+)` at the current position. -/
def takeWordTok (cs : List Char) : Option (String × List Char) :=
  let tok := cs.takeWhile wordChar
  if tok.isEmpty then none
  else some (String.mk tok, cs.dropWhile wordChar)

/-- Leftmost-match search: try the matcher at every position from the
left, like `std::regex_search`. -/
def scan {α : Type} (m : List Char → Option α) : List Char → Option α
  | [] => m []
  | c :: cs =>
    match m (c :: cs) with
    | some a => some a
    | none => scan m cs

/-- Embeds `Requests\/sec:\s+([0-9.]+)` at the current position. -/
def rpsAt (cs : List Char) : Option String := do
  let s ← dropLit "Requests/sec:".toList cs
  let s ← dropWs1 s
  let (tok, _) ← takeNumTok s
  pure tok

/-- Embeds `Transfer\/sec:\s+([0-9.]+)(KB|MB|GB)` at the current position. -/
def transferAt (cs : List Char) : Option (String × String) := do
  let s ← dropLit "Transfer/sec:".toList cs
  let s ← dropWs1 s
  let (tok, s) ← takeNumTok s
  match dropLit "KB".toList s with
  | some _ => pure (tok, "KB")
  | none =>
    match dropLit "MB".toList s with
    | some _ => pure (tok, "MB")
    | none =>
      match dropLit "GB".toList s with
      | some _ => pure (tok, "GB")
      | none => none

/-- Embeds `(\d+) requests in` at the current position. -/
def totalAt (cs : List Char) : Option String := do
  let (tok, s) ← takeDigitsTok cs
  let _ ← dropLit " requests in".toList s
  pure tok

/-- Embeds `Latency\s+([0-9.]+)(\w+)\s+([0-9.]+)(\w+)\s+([0-9.]+)(\w+)\s+([0-9.]+)%`
at the current position, returning the used captures 1, 2, 5 and 6
(average value/unit and max value/unit). -/
def latencyAt (cs : List Char) : Option (String × String × String × String) := do
  let s ← dropLit "Latency".toList cs
  let s ← dropWs1 s
  let (v1, s) ← takeNumTok s
  let (u1, s) ← takeWordTok s
  let s ← dropWs1 s
  let (_, s) ← takeNumTok s
  let (_, s) ← takeWordTok s
  let s ← dropWs1 s
  let (v5, s) ← takeNumTok s
  let (u5, s) ← takeWordTok s
  let s ← dropWs1 s
  let (_, s) ← takeNumTok s
  let _ ← dropLit "%".toList s
  pure (v1, u1, v5, u5)

/-- Embeds `\s+(\d+)%\s+([0-9.]+)(\w+)` at the current position — note the
leading `\s+`: a percentile line must carry whitespace before the
percentile figure for the pattern to match. -/
def percentileAt (cs : List Char) : Option (String × String × String) := do
  let s ← dropWs1 cs
  let (p, s) ← takeDigitsTok s
  let s ← dropLit "%".toList s
  let s ← dropWs1 s
  let (v, s) ← takeNumTok s
  let (u, _) ← takeWordTok s
  pure (p, v, u)

/-- Embeds `Socket errors: connect (\d+), read (\d+), write (\d+), timeout (\d+)`
at the current position. -/
def socketAt (cs : List Char) : Option (String × String × String × String) := do
  let s ← dropLit "Socket errors: connect ".toList cs
  let (c1, s) ← takeDigitsTok s
  let s ← dropLit ", read ".toList s
  let (c2, s) ← takeDigitsTok s
  let s ← dropLit ", write ".toList s
  let (c3, s) ← takeDigitsTok s
  let s ← dropLit ", timeout ".toList s
  let (t, _) ← takeDigitsTok s
  pure (c1, c2, c3, t)

/-- Embeds `Non-2xx or 3xx responses: (\d+)` at the current position. -/
def non2xxAt (cs : List Char) : Option String := do
  let s ← dropLit "Non-2xx or 3xx responses: ".toList cs
  let (n, _) ← takeDigitsTok s
  pure n

/-- The outcome of running all seven regex searches over one line. -/
structure LineMatches where
  rps : Option String
  transfer : Option (String × String)
  total : Option String
  latency : Option (String × String × String × String)
  percentile : Option (String × String × String)
  socket : Option (String × String × String × String)
  non2xx : Option String
deriving DecidableEq

/-- Run all seven `regex_search` calls on one line. -/
def matchLine (line : String) : LineMatches :=
  let cs := line.toList
  ⟨scan rpsAt cs, scan transferAt cs, scan totalAt cs, scan latencyAt cs,
    scan percentileAt cs, scan socketAt cs, scan non2xxAt cs⟩

/-- Embeds `parseLatencyValue(value, unit)` from `benchmark_wrk.cpp`:
microseconds and seconds are converted to milliseconds, any other unit
leaves the parsed number unchanged. -/
def parseLatencyValue (value : String) (unit : String) : ℚ :=
  let val := stod value
  if unit = "us" then val / 1000
  else if unit = "ms" then val
  else if unit = "s" then val * 1000
  else val

/-- Embeds `BenchmarkResult` from `benchmark_wrk.cpp` (the `rawOutput` blob is
omitted; every numeric field is zero-initialised as in the C++ struct). -/
structure BenchmarkResult where
  requestsPerSecond : ℚ := 0
  avgLatency : ℚ := 0
  maxLatency : ℚ := 0
  p50Latency : ℚ := 0
  p75Latency : ℚ := 0
  p90Latency : ℚ := 0
  p99Latency : ℚ := 0
  throughput : ℚ := 0
  totalRequests : ℕ := 0
  errors : ℕ := 0
  timeouts : ℕ := 0
  socketErrors : ℕ := 0
deriving DecidableEq

/-- The per-line body of `parseWrkOutput`'s while loop: apply each
successful regex match to the accumulated result, in source order. -/
def applyMatches (r : BenchmarkResult) (m : LineMatches) : BenchmarkResult :=
  let r := match m.rps with
    | some tok => { r with requestsPerSecond := stod tok }
    | none => r
  let r := match m.transfer with
    | some (tok, unit) =>
      let bytes := stod tok
      let bytes :=
        if unit = "KB" then bytes * 1024
        else if unit = "MB" then bytes * 1024 * 1024
        else if unit = "GB" then bytes * 1024 * 1024 * 1024
        else bytes
      { r with throughput := bytes }
    | none => r
  let r := match m.total with
    | some tok => { r with totalRequests := stoi tok }
    | none => r
  let r := match m.latency with
    | some (v1, u1, v5, u5) =>
      { r with
          avgLatency := parseLatencyValue v1 u1
          maxLatency := parseLatencyValue v5 u5 }
    | none => r
  let r := match m.percentile with
    | some (ptok, vtok, utok) =>
      let percentile := stoi ptok
      let value := parseLatencyValue vtok utok
      if percentile = 50 then { r with p50Latency := value }
      else if percentile = 75 then { r with p75Latency := value }
      else if percentile = 90 then { r with p90Latency := value }
      else if percentile = 99 then { r with p99Latency := value }
      else r
    | none => r
  let r := match m.socket with
    | some (c1, c2, c3, t) =>
      let se := stoi c1 + stoi c2 + stoi c3
      { r with socketErrors := se, timeouts := stoi t, errors := se + stoi t }
    | none => r
  match m.non2xx with
  | some tok => { r with errors := r.errors + stoi tok }
  | none => r

/-- One `std::getline` iteration of `parseWrkOutput`. -/
def processLine (r : BenchmarkResult) (line : String) : BenchmarkResult :=
  applyMatches r (matchLine line)

/-- Embeds `parseWrkOutput` over the list of lines of the wrk output. -/
def parseWrkOutput (lines : List String) : BenchmarkResult :=
  lines.foldl processLine {}

/-- The sample load-generator output of the claim, with the lines exactly
as quoted (in particular the percentile lines carry no leading
whitespace). -/
def sampleLines : List String :=
  ["Requests/sec: 12345.67", "Transfer/sec: 1.50MB", "50% 1.20ms",
    "90% 3.40ms", "99% 9.90ms", "1000 requests in 10s"]

/-- The same sample with the indentation wrk actually prints: percentile
lines and the summary line are indented. -/
def sampleLinesIndented : List String :=
  ["Requests/sec: 12345.67", "Transfer/sec: 1.50MB", "    50% 1.20ms",
    "    90% 3.40ms", "    99% 9.90ms", "  1000 requests in 10s"]

/-- C3 counterexample: on the exact quoted lines the parser does extract
rps, throughput and the total request count, but the percentile pattern
`\s+(\d+)%...` requires leading whitespace, so `50% 1.20ms` does not
match and `p50Latency` stays `0`, not `1.20` as claimed (likewise p90 and
p99). -/
theorem claim_C3_counterexample :
    (parseWrkOutput sampleLines).requestsPerSecond = 1234567 / 100 ∧
    (parseWrkOutput sampleLines).throughput = 1572864 ∧
    (parseWrkOutput sampleLines).totalRequests = 1000 ∧
    (parseWrkOutput sampleLines).p50Latency = 0 ∧
    ¬ (parseWrkOutput sampleLines).p50Latency = 6 / 5 := by
  have h1 : matchLine "Requests/sec: 12345.67" =
    ⟨some "12345.67", none, none, none, none, none, none⟩ := by decide
  have h2 : matchLine "Transfer/sec: 1.50MB" =
    ⟨none, some ("1.50", "MB"), none, none, none, none, none⟩ := by decide
  have h3 : matchLine "50% 1.20ms" =
    ⟨none, none, none, none, none, none, none⟩ := by decide
  have h4 : matchLine "90% 3.40ms" =
    ⟨none, none, none, none, none, none, none⟩ := by decide
  have h5 : matchLine "99% 9.90ms" =
    ⟨none, none, none, none, none, none, none⟩ := by decide
  have h6 : matchLine "1000 requests in 10s" =
    ⟨none, none, some "1000", none, none, none, none⟩ := by decide
  simp only [sampleLines, parseWrkOutput, List.foldl, processLine,
    h1, h2, h3, h4, h5, h6, applyMatches,
    show stoi "1000" = 1000 from by decide]
  norm_num [stod, parseDecimal,
    show decNum ['1', '2', '3', '4', '5', '.', '6', '7'] = 1234567 from by decide,
    show decDen ['1', '2', '3', '4', '5', '.', '6', '7'] = 100 from by decide,
    show decNum ['1', '.', '5', '0'] = 150 from by decide,
    show decDen ['1', '.', '5', '0'] = 100 from by decide,
    show ¬("MB" : String) = "KB" from by decide]

/-- C3 (amended): on the sample output with the percentile lines indented
as wrk prints them, the parser produces exactly the claimed RunResult:
rps 12345.67, throughput 1572864 bytes/sec, p50 1.20 ms, p90 3.40 ms,
p99 9.90 ms and 1000 total requests. -/
theorem claim_C3_parser_sample :
    (parseWrkOutput sampleLinesIndented).requestsPerSecond = 1234567 / 100 ∧
    (parseWrkOutput sampleLinesIndented).throughput = 1572864 ∧
    (parseWrkOutput sampleLinesIndented).p50Latency = 6 / 5 ∧
    (parseWrkOutput sampleLinesIndented).p90Latency = 17 / 5 ∧
    (parseWrkOutput sampleLinesIndented).p99Latency = 99 / 10 ∧
    (parseWrkOutput sampleLinesIndented).totalRequests = 1000 := by
  have h1 : matchLine "Requests/sec: 12345.67" =
    ⟨some "12345.67", none, none, none, none, none, none⟩ := by decide
  have h2 : matchLine "Transfer/sec: 1.50MB" =
    ⟨none, some ("1.50", "MB"), none, none, none, none, none⟩ := by decide
  have h3 : matchLine "    50% 1.20ms" =
    ⟨none, none, none, none, some ("50", "1.20", "ms"), none, none⟩ := by decide
  have h4 : matchLine "    90% 3.40ms" =
    ⟨none, none, none, none, some ("90", "3.40", "ms"), none, none⟩ := by decide
  have h5 : matchLine "    99% 9.90ms" =
    ⟨none, none, none, none, some ("99", "9.90", "ms"), none, none⟩ := by decide
  have h6 : matchLine "  1000 requests in 10s" =
    ⟨none, none, some "1000", none, none, none, none⟩ := by decide
  simp only [sampleLinesIndented, parseWrkOutput, List.foldl, processLine,
    h1, h2, h3, h4, h5, h6, applyMatches, parseLatencyValue,
    show stoi "1000" = 1000 from by decide,
    show stoi "50" = 50 from by decide,
    show stoi "90" = 90 from by decide,
    show stoi "99" = 99 from by decide]
  norm_num [stod, parseDecimal,
    show decNum ['1', '2', '3', '4', '5', '.', '6', '7'] = 1234567 from by decide,
    show decDen ['1', '2', '3', '4', '5', '.', '6', '7'] = 100 from by decide,
    show decNum ['1', '.', '5', '0'] = 150 from by decide,
    show decDen ['1', '.', '5', '0'] = 100 from by decide,
    show decNum ['1', '.', '2', '0'] = 120 from by decide,
    show decDen ['1', '.', '2', '0'] = 100 from by decide,
    show decNum ['3', '.', '4', '0'] = 340 from by decide,
    show decDen ['3', '.', '4', '0'] = 100 from by decide,
    show decNum ['9', '.', '9', '0'] = 990 from by decide,
    show decDen ['9', '.', '9', '0'] = 100 from by decide,
    show ¬("MB" : String) = "KB" from by decide,
    show ¬("ms" : String) = "us" from by decide]

/-- C4: latency-unit normalization is consistent — any two tokens
denoting the same duration in microseconds and in milliseconds parse to
the same millisecond value (in particular `850us` and `0.85ms` both give
0.85, also through the full line parser), and the throughput suffixes
KB/MB/GB scale by 1024, 1024² and 1024³ respectively. -/
theorem claim_C4_unit_normalization (s t : String)
    (h : stod s = 1000 * stod t) :
    parseLatencyValue s "us" = parseLatencyValue t "ms" ∧
    parseLatencyValue "850" "us" = 17 / 20 ∧
    parseLatencyValue "0.85" "ms" = 17 / 20 ∧
    (parseWrkOutput ["    50% 850us"]).p50Latency =
      (parseWrkOutput ["    50% 0.85ms"]).p50Latency ∧
    (parseWrkOutput ["Transfer/sec: 3.00KB"]).throughput = 3 * 1024 ∧
    (parseWrkOutput ["Transfer/sec: 3.00MB"]).throughput = 3 * 1024 ^ 2 ∧
    (parseWrkOutput ["Transfer/sec: 3.00GB"]).throughput = 3 * 1024 ^ 3 := by
  have hus : parseLatencyValue "850" "us" = 17 / 20 := by
    rw [parseLatencyValue]
    norm_num [stod, parseDecimal,
      show decNum ['8', '5', '0'] = 850 from by decide,
      show decDen ['8', '5', '0'] = 1 from by decide]
  have hms : parseLatencyValue "0.85" "ms" = 17 / 20 := by
    rw [parseLatencyValue]
    norm_num [stod, parseDecimal,
      show ¬("ms" : String) = "us" from by decide,
      show decNum ['0', '.', '8', '5'] = 85 from by decide,
      show decDen ['0', '.', '8', '5'] = 100 from by decide]
  refine ⟨?_, hus, hms, ?_, ?_, ?_, ?_⟩
  · have h1 : parseLatencyValue s "us" = stod s / 1000 := by
      simp [parseLatencyValue]
    have h2 : parseLatencyValue t "ms" = stod t := by
      simp [parseLatencyValue, show ¬("ms" : String) = "us" from by decide]
    rw [h1, h2, h]
    norm_num
  · have hl1 : matchLine "    50% 850us" =
      ⟨none, none, none, none, some ("50", "850", "us"), none, none⟩ := by
      decide
    have hl2 : matchLine "    50% 0.85ms" =
      ⟨none, none, none, none, some ("50", "0.85", "ms"), none, none⟩ := by
      decide
    simp only [parseWrkOutput, List.foldl, processLine, hl1, hl2,
      applyMatches, show stoi "50" = 50 from by decide]
    norm_num [hus, hms]
  · have hl : matchLine "Transfer/sec: 3.00KB" =
      ⟨none, some ("3.00", "KB"), none, none, none, none, none⟩ := by decide
    simp only [parseWrkOutput, List.foldl, processLine, hl, applyMatches]
    norm_num [stod, parseDecimal,
      show decNum ['3', '.', '0', '0'] = 300 from by decide,
      show decDen ['3', '.', '0', '0'] = 100 from by decide]
  · have hl : matchLine "Transfer/sec: 3.00MB" =
      ⟨none, some ("3.00", "MB"), none, none, none, none, none⟩ := by decide
    simp only [parseWrkOutput, List.foldl, processLine, hl, applyMatches]
    norm_num [stod, parseDecimal,
      show decNum ['3', '.', '0', '0'] = 300 from by decide,
      show decDen ['3', '.', '0', '0'] = 100 from by decide,
      show ¬("MB" : String) = "KB" from by decide]
  · have hl : matchLine "Transfer/sec: 3.00GB" =
      ⟨none, some ("3.00", "GB"), none, none, none, none, none⟩ := by decide
    simp only [parseWrkOutput, List.foldl, processLine, hl, applyMatches]
    norm_num [stod, parseDecimal,
      show decNum ['3', '.', '0', '0'] = 300 from by decide,
      show decDen ['3', '.', '0', '0'] = 100 from by decide,
      show ¬("GB" : String) = "KB" from by decide,
      show ¬("GB" : String) = "MB" from by decide]

theorem claim_C4_witness :
    stod "850" = 1000 * stod "0.85" ∧
    (parseLatencyValue "850" "us" = parseLatencyValue "0.85" "ms" ∧
      parseLatencyValue "850" "us" = 17 / 20 ∧
      parseLatencyValue "0.85" "ms" = 17 / 20 ∧
      (parseWrkOutput ["    50% 850us"]).p50Latency =
        (parseWrkOutput ["    50% 0.85ms"]).p50Latency ∧
      (parseWrkOutput ["Transfer/sec: 3.00KB"]).throughput = 3 * 1024 ∧
      (parseWrkOutput ["Transfer/sec: 3.00MB"]).throughput = 3 * 1024 ^ 2 ∧
      (parseWrkOutput ["Transfer/sec: 3.00GB"]).throughput = 3 * 1024 ^ 3) := by
  have h : stod "850" = 1000 * stod "0.85" := by
    norm_num [stod, parseDecimal,
      show decNum ['8', '5', '0'] = 850 from by decide,
      show decDen ['8', '5', '0'] = 1 from by decide,
      show decNum ['0', '.', '8', '5'] = 85 from by decide,
      show decDen ['0', '.', '8', '5'] = 100 from by decide]
  exact ⟨h, claim_C4_unit_normalization "850" "0.85" h⟩

/-- C9: a latency value with a unit suffix other than `us`, `ms` or `s`
falls through every branch of `parseLatencyValue` and is returned
unchanged — the unrecognized unit is silently read as milliseconds rather
than rejected. -/
theorem claim_C9_unknown_unit_passthrough (value unit : String)
    (h1 : unit ≠ "us") (h2 : unit ≠ "ms") (h3 : unit ≠ "s") :
    parseLatencyValue value unit = stod value ∧
    parseLatencyValue value unit = parseLatencyValue value "ms" := by
  constructor
  · simp [parseLatencyValue, h1, h2, h3]
  · simp [parseLatencyValue, h1, h2, h3,
      show ¬("ms" : String) = "us" from by decide]

theorem claim_C9_witness :
    (("GBps" : String) ≠ "us" ∧ ("GBps" : String) ≠ "ms" ∧
      ("GBps" : String) ≠ "s") ∧
    (parseLatencyValue "2.5" "GBps" = stod "2.5" ∧
      parseLatencyValue "2.5" "GBps" = parseLatencyValue "2.5" "ms") :=
  ⟨⟨by decide, by decide, by decide⟩,
    claim_C9_unknown_unit_passthrough "2.5" "GBps"
      (by decide) (by decide) (by decide)⟩

/-! ### Rankings (`generateReport`)

`generateReport` sorts `this.results` in place with the comparator
`(a, b) => b.requestsPerSecond - a.requestsPerSecond` and then sorts a
copy of the (now rps-sorted) array with
`(a, b) => a.latency.average - b.latency.average`.  ECMAScript
`Array.prototype.sort` is a stable sort, and a stable sort consistent
with a total preorder comparator is uniquely determined, so both calls
are modelled by the stable `List.insertionSort` over the corresponding
relation. -/

/-- The order induced by the descending-rps comparator: `a` may precede
`b` when `b.requestsPerSecond ≤ a.requestsPerSecond`. -/
def rpsDescOrder (a b : AggResult) : Prop :=
  b.requestsPerSecond ≤ a.requestsPerSecond

/-- The order induced by the ascending-latency comparator. -/
def latencyAscOrder (a b : AggResult) : Prop :=
  a.latencyAverage ≤ b.latencyAverage

instance : DecidableRel rpsDescOrder := fun a b =>
  inferInstanceAs (Decidable (b.requestsPerSecond ≤ a.requestsPerSecond))

instance : DecidableRel latencyAscOrder := fun a b =>
  inferInstanceAs (Decidable (a.latencyAverage ≤ b.latencyAverage))

instance : IsTotal AggResult rpsDescOrder :=
  ⟨fun a b => le_total b.requestsPerSecond a.requestsPerSecond⟩

instance : IsTrans AggResult rpsDescOrder :=
  ⟨fun _ _ _ hab hbc => le_trans hbc hab⟩

instance : IsTotal AggResult latencyAscOrder :=
  ⟨fun a b => le_total a.latencyAverage b.latencyAverage⟩

instance : IsTrans AggResult latencyAscOrder :=
  ⟨fun _ _ _ hab hbc => le_trans hab hbc⟩

/-- Embeds `this.results.sort((a, b) => b.requestsPerSecond - a.requestsPerSecond)`:
the primary ranking. -/
def rankingByRps (results : List AggResult) : List AggResult :=
  List.insertionSort rpsDescOrder results

/-- Embeds `[...this.results].sort((a, b) => a.latency.average - b.latency.average)`:
the secondary ranking, computed from a copy of the rps-sorted array. -/
def rankingByLatency (results : List AggResult) : List AggResult :=
  List.insertionSort latencyAscOrder (rankingByRps results)

/-- The stability fixture: rps values 50, 90, 90, 30 in input order, the
two 90-valued entries distinguished by their framework label. -/
def rank50 : AggResult := ⟨"alpha", "node", 50, 1, 3⟩

def rank90a : AggResult := ⟨"beta", "node", 90, 2, 3⟩

def rank90b : AggResult := ⟨"gamma", "node", 90, 3, 3⟩

def rank30 : AggResult := ⟨"delta", "node", 30, 4, 3⟩

/-- C5: the primary ranking sorts the results by requests-per-second
descending and the secondary ranking sorts by average latency ascending —
both are permutations of the result list — and on rps values
[50, 90, 90, 30] the descending sort places the two 90-valued entries
first with their relative input order preserved (stability). -/
theorem claim_C5_rankings (results : List AggResult) :
    List.Sorted rpsDescOrder (rankingByRps results) ∧
    (rankingByRps results).Perm results ∧
    List.Sorted latencyAscOrder (rankingByLatency results) ∧
    (rankingByLatency results).Perm results ∧
    rankingByRps [rank50, rank90a, rank90b, rank30] =
      [rank90a, rank90b, rank50, rank30] :=
  ⟨List.sorted_insertionSort rpsDescOrder results,
    List.perm_insertionSort rpsDescOrder results,
    List.sorted_insertionSort latencyAscOrder (rankingByRps results),
    (List.perm_insertionSort latencyAscOrder (rankingByRps results)).trans
      (List.perm_insertionSort rpsDescOrder results),
    by decide⟩

/-! ### Runtime comparisons (`generateComparisons`)

`generateComparisons` groups `this.results` by framework with
`byFramework[result.framework][result.runtime] = result` (a later result
overwrites an earlier one, so the last matching result wins) and, for
every framework with both a `node` and a `bun` entry, computes
`improvement = ((bunRps - nodeRps) / nodeRps) * 100` with description
`"faster"` when the improvement is positive. -/

/-- The last result stored for `(framework, runtime)` by the
`byFramework` assignments. -/
def lastWith (results : List AggResult) (fw rt : String) : Option AggResult :=
  (results.filter (fun r => decide (r.framework = fw ∧ r.runtime = rt))).getLast?

/-- The per-framework comparison record built by `generateComparisons`. -/
structure Comparison where
  nodeRps : ℚ
  nodeLatency : ℚ
  bunRps : ℚ
  bunLatency : ℚ
  improvementPercentage : ℚ
  description : String
deriving DecidableEq

/-- The body of `generateComparisons` for one framework: `some` exactly
when the framework has results under both runtimes. -/
def generateComparison (results : List AggResult) (framework : String) :
    Option Comparison :=
  match lastWith results framework "node", lastWith results framework "bun" with
  | some n, some b =>
    let nodeRps := n.requestsPerSecond
    let bunRps := b.requestsPerSecond
    let improvement := ((bunRps - nodeRps) / nodeRps) * 100
    some ⟨nodeRps, n.latencyAverage, bunRps, b.latencyAverage, improvement,
      if improvement > 0 then "faster" else "slower"⟩
  | _, _ => none

/-- Spec-side definition: `improvementPct = (rpsB - rpsA) / rpsA * 100`. -/
def specImprovementPct (rpsA rpsB : ℚ) : ℚ :=
  (rpsB - rpsA) / rpsA * 100

/-- C6: whenever a framework is present under both runtimes, the computed
improvement is exactly `(rpsB - rpsA) / rpsA * 100` over the stored node
and bun rps values, the positive sign means bun (the second runtime) is
faster, and node RPS 100 with bun RPS 150 gives exactly 50 percent. -/
theorem claim_C6_runtime_improvement (results : List AggResult)
    (framework : String) (c : Comparison)
    (h : generateComparison results framework = some c) :
    c.improvementPercentage = specImprovementPct c.nodeRps c.bunRps ∧
    (c.description = "faster" ↔ 0 < c.improvementPercentage) ∧
    specImprovementPct 100 150 = 50 := by
  rw [generateComparison] at h
  rcases hn : lastWith results framework "node" with - | n <;> rw [hn] at h
  · exact absurd h (by simp)
  rcases hb : lastWith results framework "bun" with - | b <;> rw [hb] at h
  · exact absurd h (by simp)
  simp only [Option.some.injEq] at h
  subst h
  refine ⟨rfl, ?_, by norm_num [specImprovementPct]⟩
  by_cases hpos :
      ((b.requestsPerSecond - n.requestsPerSecond) / n.requestsPerSecond) *
        100 > 0
  · simp [hpos]
  · simp only [if_neg hpos]
    constructor
    · intro hcontr
      exact absurd hcontr (by decide)
    · intro hlt
      exact absurd hlt hpos

/-- The concrete comparison fixture of the claim: framework `X` with node
RPS 100 and bun RPS 150. -/
def demoNodeX : AggResult := ⟨"X", "node", 100, 4, 3⟩

def demoBunX : AggResult := ⟨"X", "bun", 150, 2, 3⟩

theorem claim_C6_witness :
    generateComparison [demoNodeX, demoBunX] "X" =
      some ⟨100, 4, 150, 2, 50, "faster"⟩ ∧
    ((⟨100, 4, 150, 2, 50, "faster"⟩ : Comparison).improvementPercentage =
        specImprovementPct 100 150 ∧
      ((⟨100, 4, 150, 2, 50, "faster"⟩ : Comparison).description = "faster" ↔
        0 < (⟨100, 4, 150, 2, 50, "faster"⟩ : Comparison).improvementPercentage) ∧
      specImprovementPct 100 150 = 50) := by
  have hn : lastWith [demoNodeX, demoBunX] "X" "node" = some demoNodeX := by
    decide
  have hb : lastWith [demoNodeX, demoBunX] "X" "bun" = some demoBunX := by
    decide
  have h : generateComparison [demoNodeX, demoBunX] "X" =
      some ⟨100, 4, 150, 2, 50, "faster"⟩ := by
    rw [generateComparison, hn, hb]
    norm_num [demoNodeX, demoBunX]
  exact ⟨h, claim_C6_runtime_improvement [demoNodeX, demoBunX] "X" _ h⟩

/-! ### Report rendering and serialization (C8)

`generateHeader` in `scripts/generate-readme.js` renders the README
header from the loaded report object; `saveResults` in
`benchmark_wrk.cpp` writes the JSON and CSV artifacts.  Both are modelled
as functions that additionally receive the invocation-time clock value
(the JS `Date`/C++ `std::time(nullptr)` the code could read), so
determinism — independence from the call time — is expressible.  The
documents are modelled structurally: the data each artifact records, not
its textual formatting. -/

/-- The report fields `generateHeader` reads: `metadata.timestamp`,
`rankings.byRequestsPerSecond` (name and rps value per entry) and
`comparisons` (framework name and improvement percentage). -/
structure ReportJS where
  metadataTimestamp : String
  rankingsByRps : List (String × ℚ)
  comparisons : List (String × ℚ)
deriving DecidableEq

/-- Embeds `getBiggestImprovement` from `generate-readme.js`: fold over the
comparisons keeping the strictly largest improvement, starting from
`{framework: "", improvement: 0}`; the returned text is modelled by the
selected framework label (or the two fallback messages). -/
def getBiggestImprovement (comparisons : List (String × ℚ)) : String :=
  if comparisons.isEmpty then "No runtime comparisons available"
  else
    let biggest := comparisons.foldl
      (fun best c => if best.2 < c.2 then c else best) ("", 0)
    if biggest.1 = "" then "No significant improvements detected"
    else biggest.1

/-- The data rendered into the README header: the badge date
(timestamp split at `T`), the performance leader (first rps ranking
entry), the biggest runtime improvement, and the formatted timestamp. -/
structure HeaderDoc where
  lastUpdatedDate : String
  leader : Option (String × ℚ)
  biggestImprovement : String
  lastUpdatedTime : String
deriving DecidableEq

/-- Embeds `generateHeader` from `generate-readme.js`: every field is computed
from the loaded report; the wall clock `now` is available but unused. -/
def generateHeader (report : ReportJS) (now : String) : HeaderDoc where
  lastUpdatedDate := (report.metadataTimestamp.splitOn "T").headD ""
  leader := report.rankingsByRps.head?
  biggestImprovement := getBiggestImprovement report.comparisons
  lastUpdatedTime := report.metadataTimestamp

/-- The data written to `benchmark_results_wrk.json` by the C++
`saveResults`: the serialization-time clock (`std::time(nullptr)`), the
tool name, and the result rows. -/
structure WrkJsonDoc where
  timestamp : ℕ
  benchmarkTool : String
  results : List AggResult
deriving DecidableEq

/-- Embeds `jsonFile << "\"timestamp\": \"" << std::time(nullptr) << ...` — the
JSON artifact embeds the invocation-time clock value `now`. -/
def saveResultsJson (results : List AggResult) (now : ℕ) : WrkJsonDoc where
  timestamp := now
  benchmarkTool := "wrk"
  results := results

/-- The fixed CSV column header of `saveResults`. -/
def csvHeader : String :=
  "Environment,Runtime,Framework,Requests/sec,Avg Latency(ms),P50 Latency(ms),P90 Latency(ms),P99 Latency(ms),Throughput(MB/s),Total Requests,Errors,Timeouts,RPS StdDev,Latency StdDev"

/-- The data written to `benchmark_results_wrk.csv`: the fixed header and
one row per result; the clock is available but never written. -/
structure WrkCsvDoc where
  header : String
  rows : List AggResult
deriving DecidableEq

/-- The CSV half of `saveResults`. -/
def saveResultsCsv (results : List AggResult) (now : ℕ) : WrkCsvDoc where
  header := csvHeader
  rows := results

/-- C8 counterexample: two invocations of the C++ `saveResults` on the
same (empty) result list at clock values 0 and 1 produce different JSON
artifacts — the JSON embeds `std::time(nullptr)` at serialization time,
a current-time dependence beyond anything stored in the report. -/
theorem claim_C8_counterexample :
    ¬ saveResultsJson [] 0 = saveResultsJson [] 1 := by decide

/-- C8 (amended): the README header rendering and the CSV artifact are
deterministic — they depend only on the report/result values, not on the
invocation time — but the C++ JSON artifact differs between two
invocations exactly when their clock values differ. -/
theorem claim_C8_render_determinism (report : ReportJS)
    (results : List AggResult) (t1 t2 : String) (n1 n2 : ℕ) :
    generateHeader report t1 = generateHeader report t2 ∧
    saveResultsCsv results n1 = saveResultsCsv results n2 ∧
    (saveResultsJson results n1 = saveResultsJson results n2 ↔ n1 = n2) := by
  refine ⟨rfl, rfl, ?_, ?_⟩
  · intro h
    exact congrArg WrkJsonDoc.timestamp h
  · intro h
    rw [h]

end JSBench
